import Mathlib

/-!
Verification development for the REMC dual-core switch controller
(REMC_WoodruffEngineering).  The definitions below are a shallow embedding
of the C++ sources: machine integers become `Nat` with explicit reduction
modulo `2 ^ 32` / `2 ^ 64` where the C code relies on unsigned wrap-around,
hardware pins and static singleton state become explicit state structures,
and the I/O loops (UDP polling) take their externally observed events as
explicit lists.
-/

namespace REMC

set_option genSizeOfSpec false

set_option genInjectivity false

/-- Modulus of 32-bit unsigned machine arithmetic. -/
def U32 : Nat := 4294967296

/-- Modulus of 64-bit unsigned machine arithmetic. -/
def U64 : Nat := 18446744073709551616

/-- Unsigned 32-bit subtraction `a - b` with wrap-around, as used by the C
sources on `uint32_t` counters (for example `head - tail`). -/
def usub32 (a b : Nat) : Nat := (a % U32 + (U32 - b % U32)) % U32

/-- Unsigned 64-bit subtraction with wrap-around (`uint64_t` differences). -/
def usub64 (a b : Nat) : Nat := (a % U64 + (U64 - b % U64)) % U64

/-- Result of casting a `uint32_t` bit pattern to `int32_t`
(two's complement reinterpretation). -/
def toInt32 (n : Nat) : Int :=
  if n % U32 < 2147483648 then (n % U32 : Int) else (n % U32 : Int) - (U32 : Int)

/-- Result of casting an `Int` value back to `uint32_t` (reduction mod `2^32`). -/
def u32ofInt (i : Int) : Nat := (i % (U32 : Int)).toNat

/-! ## SharedRing (src/REMC_GIGAR1_Core0/SharedRing.h, src/REMC_GIGAR1_Core1/SharedRing.cpp) -/

/-- Embedding of `struct Sample` (SharedRing.h lines 6-13): the fixed 28-byte
record exchanged between the two cores.  The `_pad` field is layout-only and
is not modelled. -/
structure Sample where
  t_us : Nat
  rollover_count : Nat
  swI : Nat
  swV : Nat
  outA : Nat
  outB : Nat
  t1 : Nat
  t_us_end : Nat
  rollover_count_end : Nat

/-- Default capacity `SHARED_RING_CAPACITY` (SharedRing.h line 20). -/
def SHARED_RING_CAPACITY : Nat := 1024

/-- Embedding of `struct SharedRing` (SharedRing.h lines 23-29).  `samples` is
the backing store indexed by the masked slot number; `capacity`, `head`,
`tail` and `overruns` are the `uint32_t` counters. -/
structure SharedRing where
  capacity : Nat
  head : Nat
  tail : Nat
  overruns : Nat
  samples : Nat → Sample

/-- Embedding of `SharedRing_Init` (SharedRing.cpp lines 27-32); the capacity
is a compile-time constant in the source (`SHARED_RING_CAPACITY`), here a
parameter so that the capacity-4 test scenario is expressible. -/
def SharedRing_Init (cap : Nat) (r : SharedRing) : SharedRing :=
  { r with capacity := cap, head := 0, tail := 0, overruns := 0 }

/-- Embedding of the producer `SharedRing_Add` (SharedRing.cpp lines 35-66):
on a full ring (`head - tail >= cap`, unsigned) the oldest entry is dropped
by advancing `tail` and counting an overrun; the sample is stored at
`head & mask` and `head` is then published incremented. -/
def SharedRing_Add (r : SharedRing) (sample : Sample) : SharedRing :=
  let cap := r.capacity
  let mask := cap - 1
  let head := r.head
  let tail := r.tail
  let r1 :=
    if cap ≤ usub32 head tail then
      { r with tail := (tail + 1) % U32, overruns := (r.overruns + 1) % U32 }
    else r
  let r2 :=
    { r1 with samples := fun i => if i = head &&& mask then sample else r1.samples i }
  { r2 with head := (head + 1) % U32 }

/-- Embedding of the consumer `SharedRing_Consume` (SharedRing.cpp lines
71-111).  The `out` pointer is modelled by `out_nonnull`; the copied region
is returned as a list (the two linear chunks of the source, concatenated).
Returns (count copied, copied samples, new ring state). -/
def SharedRing_Consume (r : SharedRing) (out_nonnull : Bool) (max_samples : Int) :
    Nat × List Sample × SharedRing :=
  if out_nonnull = false then (0, [], r)
  else
    let cap := r.capacity
    let mask := cap - 1
    let head_snapshot := r.head
    let tail := r.tail
    let available := usub32 head_snapshot tail
    if available = 0 then (0, [], r)
    else
      let take : Nat :=
        if max_samples < 0 then available
        else u32ofInt (min max_samples (toInt32 available))
      let first_chunk := min take (cap - (tail &&& mask))
      let out1 := (List.range first_chunk).map (fun i => r.samples ((tail + i) &&& mask))
      let remaining := take - first_chunk
      let out2 :=
        (List.range remaining).map (fun i => r.samples ((tail + first_chunk + i) &&& mask))
      (take, out1 ++ out2, { r with tail := (tail + take) % U32 })

/-- Ring counter sanity: both counters are reduced `uint32_t` values and the
unsigned distance `head - tail` never exceeds the capacity. -/
def RingInv (r : SharedRing) : Prop :=
  r.head < U32 ∧ r.tail < U32 ∧ usub32 r.head r.tail ≤ r.capacity

instance (r : SharedRing) : Decidable (RingInv r) := by
  unfold RingInv; infer_instance

/-! ## StateManager (src/REMC_GIGAR1_Core0/StateManager.cpp) -/

/-- Embedding of `enum class SystemState` (StateManager.h). -/
inductive SystemState where
  | STATE_IDLE
  | STATE_ARM_START_ENGAGE
  | STATE_ARM_PAUSE_BEFORE_PULLBACK
  | STATE_ARM_PULL_BACK
  | STATE_ARMED_READY
  | STATE_FIRING
  | STATE_HOLD_AFTER_FIRE
  deriving DecidableEq, BEq

export SystemState (STATE_IDLE STATE_ARM_START_ENGAGE STATE_ARM_PAUSE_BEFORE_PULLBACK
  STATE_ARM_PULL_BACK STATE_ARMED_READY STATE_FIRING STATE_HOLD_AFTER_FIRE)

/-- Embedding of `enum ActuatorMoveState` (ActuatorManager.h). -/
inductive ActuatorMoveState where
  | ACT_STOP
  | ACT_FWD
  | ACT_BWD
  deriving DecidableEq

export ActuatorMoveState (ACT_STOP ACT_FWD ACT_BWD)

/-- Embedding of the StateManager singleton state: the file-scope statics of
StateManager.cpp (lines 9-43) together with the actuator drive last commanded
through `ActuatorManager::run` and the cached MSW input snapshot `g_inputs`.
`lastState` is the function-local static of `update()` (line 164). -/
structure SMState where
  currentState : SystemState
  isInManualMode : Bool
  holdAfterFireMode : Bool
  holdAfterFireModeEMFireFlag : Bool
  readyOutputState : Bool
  emActOutputState : Bool
  softwareArmTrigger : Bool
  softwareFireTrigger : Bool
  stateStartMs : Nat
  pauseBeforePullbackStartMs : Nat
  errArmTimeout : Bool
  errPullbackTimeout : Bool
  errRetainFail : Bool
  lastState : SystemState
  actuator : ActuatorMoveState
  mswA_low : Bool
  mswB_low : Bool
  read_us : Nat

/-- Timeout constants (StateManager.cpp lines 40-42), in milliseconds. -/
def ARM_TIMEOUT_MS : Nat := 1000

/-- Timeout by which MSW_B must fire during pull-back (line 41). -/
def PULLBACK_TIMEOUT_MS : Nat := 1000

/-- Pause between MSW_A trip and pull-back (line 42). -/
def PAUSE_BEFORE_PULLBACK_MS : Nat := 500

/-- Embedding of the helper `setEMState` (StateManager.cpp lines 46-49). -/
def setEMState (st : SMState) (b : Bool) : SMState :=
  { st with emActOutputState := b }

/-- Embedding of the helper `resetToIdle` (StateManager.cpp lines 52-65):
stop the actuator, drop EM and READY, clear both software triggers and all
three sticky error bits. -/
def resetToIdle (st : SMState) : SMState :=
  { st with actuator := ACT_STOP, emActOutputState := false, readyOutputState := false,
            softwareArmTrigger := false, softwareFireTrigger := false,
            errArmTimeout := false, errPullbackTimeout := false, errRetainFail := false }

/-- State of the StateManager right after `StateManager::init()`
(StateManager.cpp lines 69-80). -/
def initSMState : SMState :=
  { currentState := STATE_IDLE, isInManualMode := false, holdAfterFireMode := false,
    holdAfterFireModeEMFireFlag := false, readyOutputState := false,
    emActOutputState := false, softwareArmTrigger := false, softwareFireTrigger := false,
    stateStartMs := 0, pauseBeforePullbackStartMs := 0, errArmTimeout := false,
    errPullbackTimeout := false, errRetainFail := false, lastState := STATE_IDLE,
    actuator := ACT_STOP, mswA_low := false, mswB_low := false, read_us := 0 }

/-- Embedding of `StateManager::requestArm` (StateManager.cpp lines 111-120). -/
def requestArm (st : SMState) : SMState :=
  if st.isInManualMode then st
  else if st.currentState = STATE_IDLE then { st with softwareArmTrigger := true }
  else st

/-- Embedding of `StateManager::requestDisarm` (StateManager.cpp lines 122-126). -/
def requestDisarm (st : SMState) : SMState :=
  resetToIdle { st with currentState := STATE_IDLE }

/-- Embedding of `StateManager::triggerSoftwareActuate` (StateManager.cpp
lines 128-137). -/
def triggerSoftwareActuate (st : SMState) : SMState :=
  if st.isInManualMode then st
  else if st.currentState = STATE_ARMED_READY then { st with softwareFireTrigger := true }
  else st

/-- Embedding of `StateManager::getErrorFlags` (StateManager.cpp lines
309-315): bit 0 arm-timeout, bit 1 pullback-timeout, bit 2 retain-fail. -/
def getErrorFlags (st : SMState) : Nat :=
  (if st.errArmTimeout then 1 else 0) |||
  (if st.errPullbackTimeout then 2 else 0) |||
  (if st.errRetainFail then 4 else 0)

/-- Embedding of `StateManager::update` (StateManager.cpp lines 139-305).
Inputs per tick: the two end-stop reads (`a_low`, `b_low`, active low), the
millisecond clock `ms` (the call's `millis()` value) and the microsecond
clock `us`.  The literal `if true` / `if false` guards of the source
(lines 192, 223, 244), whose real conditions are commented out there, are
kept verbatim. -/
def StateManager_update (st0 : SMState) (a_low b_low : Bool) (ms us : Nat) : SMState :=
  let st := { st0 with mswA_low := a_low, mswB_low := b_low, read_us := us }
  if st.isInManualMode then
    { st with readyOutputState := false }
  else
    let st :=
      if st.lastState ≠ st.currentState then
        { st with stateStartMs := ms, lastState := st.currentState }
      else st
    match st.currentState with
    | STATE_IDLE =>
        if st.softwareArmTrigger then
          let st := setEMState st true
          { st with
            currentState := STATE_ARM_START_ENGAGE,
            softwareArmTrigger := false, stateStartMs := ms, actuator := ACT_FWD }
        else resetToIdle st
    | STATE_ARM_START_ENGAGE =>
        if true then
          { st with
            actuator := ACT_STOP,
            currentState := STATE_ARM_PAUSE_BEFORE_PULLBACK,
            pauseBeforePullbackStartMs := ms }
        else if ARM_TIMEOUT_MS < usub32 ms st.stateStartMs then
          { st with errArmTimeout := true }
        else st
    | STATE_ARM_PAUSE_BEFORE_PULLBACK =>
        if PAUSE_BEFORE_PULLBACK_MS < usub32 ms st.pauseBeforePullbackStartMs then
          { st with
            currentState := STATE_ARM_PULL_BACK, actuator := ACT_BWD,
            stateStartMs := ms }
        else st
    | STATE_ARM_PULL_BACK =>
        if true then
          { st with
            currentState := STATE_ARMED_READY, actuator := ACT_STOP,
            readyOutputState := true, stateStartMs := ms }
        else if PULLBACK_TIMEOUT_MS < usub32 ms st.stateStartMs then
          { st with errPullbackTimeout := true }
        else st
    | STATE_ARMED_READY =>
        let st := if false then { st with errRetainFail := true } else st
        if st.softwareFireTrigger then
          let st := setEMState { st with softwareFireTrigger := false } false
          let st := { st with readyOutputState := false }
          if st.holdAfterFireMode then
            let st := setEMState st false
            { st with currentState := STATE_HOLD_AFTER_FIRE, stateStartMs := ms }
          else
            { st with currentState := STATE_FIRING, stateStartMs := ms }
        else st
    | STATE_FIRING =>
        let st := resetToIdle { st with currentState := STATE_IDLE }
        { st with stateStartMs := ms }
    | STATE_HOLD_AFTER_FIRE =>
        let st :=
          if st.mswA_low = false then
            { st with
              holdAfterFireModeEMFireFlag := true, actuator := ACT_FWD }
          else st
        if st.mswA_low && st.holdAfterFireModeEMFireFlag then
          resetToIdle
            { st with
              actuator := ACT_STOP, currentState := STATE_IDLE,
              holdAfterFireModeEMFireFlag := false }
        else st

/-- Embedding of `StateManager::isReady` (StateManager.cpp line 319). -/
def isReady (st : SMState) : Bool :=
  !st.isInManualMode && st.currentState == STATE_ARMED_READY

/-- Embedding of `StateManager::isEmActActive` (StateManager.cpp line 320). -/
def isEmActActive (st : SMState) : Bool := st.emActOutputState

/-- Embedding of `StateManager::isManualModeActive` (StateManager.cpp line 350). -/
def isManualModeActive (st : SMState) : Bool := st.isInManualMode

/-- Embedding of `StateManager::isHoldAfterFireModeActive` (line 351). -/
def isHoldAfterFireModeActive (st : SMState) : Bool := st.holdAfterFireMode

/-! ## TimeMapper (src/REMC_GIGAR1_Core0/TimeMapper.cpp) -/

/-- Mapping anchor of the TimeMapper singleton: `_hasMappingData`,
`_ntpTimeAtSync` and `_hardwareTimeAtSync` (TimeMapper.h / TimeMapper.cpp
lines 104-128).  Both timestamps are `uint64_t` microsecond values. -/
structure TimeMapperState where
  hasMappingData : Bool
  ntpTimeAtSync : Nat
  hardwareTimeAtSync : Nat

/-- Embedding of `TimeMapper::hardwareToNTPInstance` (TimeMapper.cpp lines
130-144): without mapping data it returns 0; otherwise it adds the signed
64-bit delta `hardwareMicros - _hardwareTimeAtSync` to `_ntpTimeAtSync`,
which in two's-complement `uint64_t` arithmetic is addition modulo `2^64`. -/
def hardwareToNTPInstance (m : TimeMapperState) (hardwareMicros : Nat) : Nat :=
  if m.hasMappingData = false then 0
  else (m.ntpTimeAtSync % U64 + (hardwareMicros % U64 + (U64 - m.hardwareTimeAtSync % U64))) % U64

/-- Embedding of `TimeMapper::sampleToNTP` (TimeMapper.cpp lines 34-38):
composes the 64-bit hardware timestamp `(rollover_count << 32) | t_us` and
maps it through `hardwareToNTP`. -/
def sampleToNTP (m : TimeMapperState) (t_us rollover_count : Nat) : Nat :=
  hardwareToNTPInstance m (rollover_count <<< 32 ||| t_us)

/-! ## NTPClient (src/REMC_GIGAR1_Core0/NTPClient.cpp, NTPClient.h) -/

/-- Seconds between the 1900 NTP epoch and the 1970 Unix epoch
(NTPClient.cpp line 5). -/
def NTP_UNIX_EPOCH_DIFF : Nat := 2208988800

/-- Size of an NTP packet in bytes (NTPClient.cpp line 6). -/
def NTP_PACKET_SIZE : Nat := 48

/-- Embedding of `NTPClient::ntpFracToMicros` (NTPClient.h lines 63-66):
`frac * 1e6 / 2^32` in exact 64-bit integer arithmetic. -/
def ntpFracToMicros (frac : Nat) : Nat :=
  (frac * 1000000) >>> 32

/-- Conversion of a parsed NTP transmit timestamp to Unix microseconds,
before the RTT/2 correction, exactly as computed by `NTPClient::syncInstance`
(NTPClient.cpp lines 275-278): `unixSecs` is the `uint32_t` difference
`secs - NTP_UNIX_EPOCH_DIFF` widened to 64 bits, then
`unixSecs * 1000000 + ntpFracToMicros frac`. -/
def ntpServerTime (secs frac : Nat) : Nat :=
  usub32 secs NTP_UNIX_EPOCH_DIFF * 1000000 + ntpFracToMicros frac

/-- Persistent state of the NTPClient singleton (NTPClient.h lines 78-84). -/
structure NTPState where
  serverResolved : Bool
  synced : Bool
  epochUsAtSync : Nat
  microsAtSync : Nat
  requestSentMicros : Nat

/-- Byte access into a received datagram, as the `uint8_t buf[i]` reads of
the source. -/
def byteAt (buf : List Nat) (i : Nat) : Nat := buf.getD i 0 % 256

/-- Embedding of `NTPClient::readResponse` (NTPClient.cpp lines 167-221).
The argument is the datagram returned by `parsePacket`/`read` this
iteration (`none` when no packet is available).  Validations: at least 48
bytes, mode 4, and the Unix-seconds sanity check (post-2000); on success the
big-endian transmit timestamp at bytes 40-47 is returned as (secs, frac). -/
def readResponse (pkt : Option (List Nat)) : Option (Nat × Nat) :=
  match pkt with
  | none => none
  | some buf =>
    if buf.length < NTP_PACKET_SIZE then none
    else
      let mode := byteAt buf 0 &&& 7
      if mode ≠ 4 then none
      else
        let secs := byteAt buf 40 <<< 24 ||| byteAt buf 41 <<< 16 |||
                    byteAt buf 42 <<< 8 ||| byteAt buf 43
        let frac := byteAt buf 44 <<< 24 ||| byteAt buf 45 <<< 16 |||
                    byteAt buf 46 <<< 8 ||| byteAt buf 47
        let unixSecs := usub32 secs NTP_UNIX_EPOCH_DIFF
        if unixSecs < 946684800 then none
        else some (secs, frac)

/-- Polling loop of `NTPClient::syncInstance` (NTPClient.cpp lines 252-302).
Each element of `polls` is one loop iteration: the datagram seen by
`readResponse` (if any) paired with the `HardwareTimer::getMicros64()` value
at that iteration.  An exhausted list is the `timeout_ms` expiry (the loop
exits and sync returns false).  On the first valid response the anchor
`_epochUsAtSync` / `_microsAtSync` is set from the RTT/2-corrected server
time and `_synced` becomes true. -/
def syncPollLoop (st : NTPState) (polls : List (Option (List Nat) × Nat)) :
    Bool × NTPState :=
  match polls with
  | [] => (false, st)
  | (pkt, recvMicros) :: rest =>
    match readResponse pkt with
    | some sf =>
        let rttMicros := usub64 recvMicros st.requestSentMicros
        let serverTime := ntpServerTime sf.1 sf.2
        let correctedServerTime := (serverTime + rttMicros / 2) % U64
        (true, { st with
                 epochUsAtSync := correctedServerTime,
                 microsAtSync := recvMicros,
                 synced := true })
    | none => syncPollLoop st rest

/-- Embedding of `NTPClient::syncInstance` (NTPClient.cpp lines 223-308).
`sendOk` is the outcome of `sendRequest` (which stamps
`_requestSentMicros = sendMicros` only when every network step succeeded,
NTPClient.cpp lines 127-165); `polls` drives the response polling loop.
Returns (success flag, updated client state). -/
def NTPClient_syncInstance (st : NTPState) (sendOk : Bool) (sendMicros : Nat)
    (polls : List (Option (List Nat) × Nat)) : Bool × NTPState :=
  if st.serverResolved = false then (false, st)
  else if sendOk = false then (false, st)
  else syncPollLoop { st with requestSentMicros := sendMicros } polls

/-! ## UdpManager telemetry emitter (src/REMC_GIGAR1_Core0/UdpManager.cpp)

The five `float` analog channels are modelled in exact rational arithmetic;
the claims settled here depend only on the `uint64_t` timestamp field, the
status bytes and the bundle/packet bookkeeping, none of which involve
floating point. -/

/-- Maximum samples per UDP packet (UdpManager.cpp line 53). -/
def MAX_SAMPLES_PER_BUNDLE : Nat := 41

/-- Bytes per payload record: 5 floats + u64 + 6 status bytes = 34
(UdpManager.cpp line 56). -/
def DATA_SIZE_PER_SAMPLE : Nat := 34

/-- Neutrino header size in bytes (UdpManager.cpp line 30). -/
def HEADER_SIZE : Nat := 64

/-- ADC full-scale constant (UdpManager.cpp line 67). -/
def ADC_MAX_VALUE : Rat := 4095

/-- Switch current calibration scale (UdpManager.cpp line 70). -/
def SCALE_SWITCH_CURRENT_A : Rat := 1000 / ADC_MAX_VALUE

/-- Switch current calibration offset (UdpManager.cpp line 71). -/
def OFFSET_SWITCH_CURRENT_A : Rat := -471.551

/-- Switch voltage calibration scale (UdpManager.cpp line 74). -/
def SCALE_VOLTAGE_KV : Rat := 0.004449458233

/-- Switch voltage calibration offset (UdpManager.cpp line 75). -/
def OFFSET_VOLTAGE_KV : Rat := -8.939881545

/-- Output A voltage calibration scale (UdpManager.cpp line 78). -/
def SCALE_OUTPUT_A_KV : Rat := 0.004447667531

/-- Output A voltage calibration offset (UdpManager.cpp line 79). -/
def OFFSET_OUTPUT_A_KV : Rat := -8.941615805

/-- Output B voltage calibration scale (UdpManager.cpp line 82). -/
def SCALE_OUTPUT_B_KV : Rat := 0.004445948727

/-- Output B voltage calibration offset (UdpManager.cpp line 83). -/
def OFFSET_OUTPUT_B_KV : Rat := -8.936364074

/-- Temperature calibration scale (UdpManager.cpp line 86). -/
def SCALE_TEMP_DEGC : Rat := 100 / ADC_MAX_VALUE

/-- Temperature calibration offset (UdpManager.cpp line 87). -/
def OFFSET_TEMP_DEGC : Rat := -5.5

/-- Embedding of `UdpManager::convertSwitchCurrentA` (UdpManager.cpp 203-205). -/
def convertSwitchCurrentA (raw : Nat) : Rat :=
  raw * SCALE_SWITCH_CURRENT_A + OFFSET_SWITCH_CURRENT_A

/-- Embedding of `UdpManager::convertSwitchVoltageKV` (UdpManager.cpp 207-209). -/
def convertSwitchVoltageKV (raw : Nat) : Rat :=
  raw * SCALE_VOLTAGE_KV + OFFSET_VOLTAGE_KV

/-- Embedding of `UdpManager::convertOutputVoltageAKV` (UdpManager.cpp 211-213). -/
def convertOutputVoltageAKV (raw : Nat) : Rat :=
  raw * SCALE_OUTPUT_A_KV + OFFSET_OUTPUT_A_KV

/-- Embedding of `UdpManager::convertOutputVoltageBKV` (UdpManager.cpp 215-217). -/
def convertOutputVoltageBKV (raw : Nat) : Rat :=
  raw * SCALE_OUTPUT_B_KV + OFFSET_OUTPUT_B_KV

/-- Embedding of `UdpManager::convertTemp1DegC` (UdpManager.cpp 219-221). -/
def convertTemp1DegC (raw : Nat) : Rat :=
  raw * SCALE_TEMP_DEGC + OFFSET_TEMP_DEGC

/-- Embedding of `struct TelemetrySample` (UdpManager.cpp lines 60-64): one
converted 34-byte payload record of the current bundle. -/
structure TelemetrySample where
  sv : Rat
  sc : Rat
  ova : Rat
  ovb : Rat
  tm1 : Rat
  us : Nat
  ready : Nat
  em : Nat
  a : Nat
  b : Nat
  manual : Nat
  hold : Nat

/-- End-stop GPIO pin levels read directly by the emitter via `digitalRead`
(UdpManager.cpp lines 243-244, 277-278): true means the pin reads LOW. -/
structure PinReads where
  mswA_pin_low : Bool
  mswB_pin_low : Bool

/-- Emitter bookkeeping: the static sample bundle `s_sample_bundle` with
`s_bundle_count` (UdpManager.cpp lines 95-96), plus the observable record of
datagram sizes handed to the UDP socket by `sendNeutrinoPacket`. -/
structure EmitterState where
  bundle : List TelemetrySample
  sentPacketSizes : List Nat

/-- Emitter state after `UdpManager::init`: empty bundle, nothing sent. -/
def initEmitterState : EmitterState :=
  { bundle := [], sentPacketSizes := [] }

/-- Embedding of `UdpManager::sendNeutrinoPacket` (UdpManager.cpp lines
366-424): nothing happens on an empty bundle; otherwise one datagram of
`HEADER_SIZE + DATA_SIZE_PER_SAMPLE * s_bundle_count` bytes is emitted.
Only the emitted size is recorded here; the header serialization, schema
fragment cycling and byte layout do not affect the datagram length. -/
def sendNeutrinoPacket (st : EmitterState) : EmitterState :=
  if st.bundle.length = 0 then st
  else
    { st with
      sentPacketSizes :=
        st.sentPacketSizes ++ [HEADER_SIZE + DATA_SIZE_PER_SAMPLE * st.bundle.length] }

/-- Embedding of `UdpManager::flushSamples` (UdpManager.cpp lines 297-302):
send the current bundle (if non-empty) and reset the bundle count. -/
def flushSamples (st : EmitterState) : EmitterState :=
  if st.bundle.length = 0 then st
  else
    let st := sendNeutrinoPacket st
    { st with bundle := [] }

/-- Conversion of one raw sample into the bundle record as performed by
`UdpManager::addSample` (UdpManager.cpp lines 230-246): analog channels are
calibrated, the timestamp is `TimeMapper::sampleToNTP(t_us, rollover_count)`
and the six status bytes come from the StateManager and the end-stop pins. -/
def addSampleRecord (sm : SMState) (pins : PinReads) (m : TimeMapperState)
    (sample : Sample) : TelemetrySample :=
  { sv := convertSwitchVoltageKV sample.swV,
    sc := convertSwitchCurrentA sample.swI,
    ova := convertOutputVoltageAKV sample.outA,
    ovb := convertOutputVoltageBKV sample.outB,
    tm1 := convertTemp1DegC sample.t1,
    us := sampleToNTP m sample.t_us sample.rollover_count,
    ready := if isReady sm then 1 else 0,
    em := if isEmActActive sm then 1 else 0,
    a := if pins.mswA_pin_low then 0 else 1,
    b := if pins.mswB_pin_low then 0 else 1,
    manual := if isManualModeActive sm then 1 else 0,
    hold := if isHoldAfterFireModeActive sm then 1 else 0 }

/-- Embedding of `UdpManager::addSample` (UdpManager.cpp lines 223-250):
flush first if the bundle is full, then append the converted record. -/
def UdpManager_addSample (sm : SMState) (pins : PinReads) (m : TimeMapperState)
    (sample : Sample) (st : EmitterState) : EmitterState :=
  let st := if MAX_SAMPLES_PER_BUNDLE ≤ st.bundle.length then flushSamples st else st
  { st with bundle := st.bundle ++ [addSampleRecord sm pins m sample] }

/-- Conversion of one raw sample inside the bulk loop of
`UdpManager::addSamplesBulk` (UdpManager.cpp lines 262-283).  Note that the
bulk path stores the raw `t_us` field verbatim in the `us` slot
(`ts.us = sample.t_us;`, line 272) instead of the `TimeMapper` mapping used
by `addSample`. -/
def addSamplesBulkRecord (sm : SMState) (pins : PinReads) (sample : Sample) :
    TelemetrySample :=
  { sv := convertSwitchVoltageKV sample.swV,
    sc := convertSwitchCurrentA sample.swI,
    ova := convertOutputVoltageAKV sample.outA,
    ovb := convertOutputVoltageBKV sample.outB,
    tm1 := convertTemp1DegC sample.t1,
    us := sample.t_us,
    ready := if isReady sm then 1 else 0,
    em := if isEmActActive sm then 1 else 0,
    a := if pins.mswA_pin_low then 0 else 1,
    b := if pins.mswB_pin_low then 0 else 1,
    manual := if isManualModeActive sm then 1 else 0,
    hold := if isHoldAfterFireModeActive sm then 1 else 0 }

/-- The `while (processed < count)` loop of `UdpManager::addSamplesBulk`
(UdpManager.cpp lines 256-292): per iteration, up to the remaining bundle
space of samples are converted and appended, and a full bundle is flushed
immediately. -/
def addSamplesBulkLoop (sm : SMState) (pins : PinReads) (samples : List Sample)
    (processed : Nat) (st : EmitterState) : EmitterState :=
  if _h : processed < samples.length then
    let space_available := MAX_SAMPLES_PER_BUNDLE - st.bundle.length
    let to_process := min (samples.length - processed) space_available
    let chunk := ((samples.drop processed).take to_process).map
                   (addSamplesBulkRecord sm pins)
    let st1 : EmitterState := { st with bundle := st.bundle ++ chunk }
    let st2 := if MAX_SAMPLES_PER_BUNDLE ≤ st1.bundle.length then flushSamples st1 else st1
    addSamplesBulkLoop sm pins samples (processed + to_process) st2
  else st
termination_by
  2 * (samples.length - processed) + (if MAX_SAMPLES_PER_BUNDLE ≤ st.bundle.length then 1 else 0)
decreasing_by
  have e3 : (if MAX_SAMPLES_PER_BUNDLE ≤ st2.bundle.length then (1 : Nat) else 0) = 0 := by
    by_cases h41 : MAX_SAMPLES_PER_BUNDLE ≤ st1.bundle.length
    · have e : st2 = flushSamples st1 := if_pos h41
      have hb : (flushSamples st1).bundle = [] := by
        unfold flushSamples sendNeutrinoPacket
        split_ifs with h0
        · exact List.length_eq_zero.mp h0
        · rfl
      rw [e, hb]
      simp [MAX_SAMPLES_PER_BUNDLE]
    · have e : st2 = st1 := if_neg h41
      rw [e, if_neg h41]
  rw [e3]
  have hv : to_process = min (samples.length - processed) space_available := rfl
  have hs : space_available = MAX_SAMPLES_PER_BUNDLE - st.bundle.length := rfl
  simp only [MAX_SAMPLES_PER_BUNDLE] at *
  split_ifs with hst <;> omega

/-- Embedding of `UdpManager::addSamplesBulk` (UdpManager.cpp lines 252-295). -/
def UdpManager_addSamplesBulk (sm : SMState) (pins : PinReads)
    (samples : List Sample) (st : EmitterState) : EmitterState :=
  addSamplesBulkLoop sm pins samples 0 st

/-- One externally triggered emitter operation: the three entry points of
the bundling path (UdpManager.cpp lines 223, 252, 297). -/
inductive EmitterOp where
  | opAddSample (sm : SMState) (pins : PinReads) (m : TimeMapperState) (s : Sample)
  | opAddSamplesBulk (sm : SMState) (pins : PinReads) (ss : List Sample)
  | opFlushSamples

/-- Dispatch of one emitter operation. -/
def runEmitterOp (st : EmitterState) (op : EmitterOp) : EmitterState :=
  match op with
  | EmitterOp.opAddSample sm pins m s => UdpManager_addSample sm pins m s st
  | EmitterOp.opAddSamplesBulk sm pins ss => UdpManager_addSamplesBulk sm pins ss st
  | EmitterOp.opFlushSamples => flushSamples st

/-- A whole run of the emitter: any sequence of bundling operations. -/
def runEmitterOps (st : EmitterState) (ops : List EmitterOp) : EmitterState :=
  ops.foldl runEmitterOp st

/-! ## SampleCollector (src/REMC_GIGAR1_Core0/SampleCollector.cpp) -/

/-- Static state of the `SampleCollector` capture buffer
(SampleCollector.cpp lines 6-16): the SDRAM ring (`ringBuffer`, `ringHead`
as the masked write position, `ringCapacity`), the running absolute sample
count `totalSamplesReceived`, and the one active gathering job.  The
diagnostics-only rolling window (`ringBuf`, `ringCount`, `ringIndex`) and
the default window bounds are not part of the extraction path modelled
here. -/
structure CollectorState where
  ringCapacity : Nat
  ringHead : Nat
  totalSamplesReceived : Nat
  gatheringActive : Bool
  gatheringStart : Int
  gatheringStop : Int
  samplesNeeded : Nat
  samplesCollected : Nat
  gatheringStartSampleCount : Nat
  ringBuffer : Nat → Sample

/-- Collector state after `SampleCollector::init(capacity)`
(SampleCollector.cpp lines 27-63); the freshly allocated SDRAM contents are
arbitrary (`buf0`). -/
def collectorInit (capacity : Nat) (buf0 : Nat → Sample) : CollectorState :=
  { ringCapacity := capacity, ringHead := 0, totalSamplesReceived := 0,
    gatheringActive := false, gatheringStart := 0, gatheringStop := 0,
    samplesNeeded := 0, samplesCollected := 0, gatheringStartSampleCount := 0,
    ringBuffer := buf0 }

/-- Embedding of `SampleCollector::storeSampleInRing` (SampleCollector.cpp
lines 82-91): write at `ringHead`, advance it modulo the capacity, count the
sample. -/
def storeSampleInRing (st : CollectorState) (sample : Sample) : CollectorState :=
  { st with
    ringBuffer := fun i => if i = st.ringHead then sample else st.ringBuffer i,
    ringHead := (st.ringHead + 1) % st.ringCapacity,
    totalSamplesReceived := st.totalSamplesReceived + 1 }

/-- Embedding of `SampleCollector::startGathering(start, stop)`
(SampleCollector.cpp lines 93-129): rejected unless `stop > start`;
otherwise snapshots `totalSamplesReceived` as the reference count and
activates the job. -/
def startGathering (st : CollectorState) (start stop : Int) : CollectorState :=
  if stop ≤ start then st
  else
    { st with
      gatheringStart := start, gatheringStop := stop,
      samplesNeeded := (stop - start).toNat, samplesCollected := 0,
      gatheringStartSampleCount := st.totalSamplesReceived,
      gatheringActive := true }

/-- Embedding of `SampleCollector::canSendNow` (SampleCollector.cpp lines
189-205). -/
def canSendNow (st : CollectorState) : Bool :=
  if st.gatheringStop ≤ 0 then
    if st.gatheringStart < 0 then
      decide ((-st.gatheringStart).toNat ≤ min st.totalSamplesReceived st.ringCapacity)
    else true
  else
    decide (st.gatheringStop.toNat ≤ st.totalSamplesReceived - st.gatheringStartSampleCount)

/-- Embedding of `SampleCollector::getRingIndex` (SampleCollector.cpp lines
207-233).  `relativeIndex` is an `int`; the sum with the `size_t` reference
count wraps modulo `2^64` exactly as the C conversion does.  The capacity is
returned as the invalid-index marker. -/
def getRingIndex (st : CollectorState) (relativeIndex : Int)
    (referenceSampleCount : Nat) : Nat :=
  if st.totalSamplesReceived = 0 then 0
  else
    let absoluteSampleNumber : Nat :=
      ((referenceSampleCount + relativeIndex) % (U64 : Int)).toNat
    if st.totalSamplesReceived ≤ absoluteSampleNumber then st.ringCapacity
    else
      let oldestAvailable :=
        if st.ringCapacity ≤ st.totalSamplesReceived then
          st.totalSamplesReceived - st.ringCapacity
        else 0
      if absoluteSampleNumber < oldestAvailable then st.ringCapacity
      else absoluteSampleNumber % st.ringCapacity

/-- Index sequence of a C `for (int i = start; i < stop; i++)` loop:
`start, start+1, ..., stop-1` (empty when `stop <= start`). -/
def loopIndices (start stop : Int) : List Int :=
  (List.range (stop - start).toNat).map (fun k => start + (k : Int))

/-- The extraction loop of `SampleCollector::extractRequestedSamples`
(SampleCollector.cpp lines 245-271), written as structural recursion over
the index sequence `loopIndices gatheringStart gatheringStop` of the C
`for` loop.  An invalid index is skipped when `i < 0` (historical sample
overwritten) and terminates the loop when `i ≥ 0` (future sample not yet
available).  `acc` is the sequence of samples handed to
`UdpManager::addSample`; `collected` is the `samplesCollected` counter (the
interleaved `flushSamples` batching affects only packetization, not which
samples are emitted or counted). -/
def extractLoop (st : CollectorState) (idxs : List Int) (acc : List Sample)
    (collected : Nat) : List Sample × Nat :=
  match idxs with
  | [] => (acc, collected)
  | i :: rest =>
    let ringIndex := getRingIndex st i st.gatheringStartSampleCount
    if st.ringCapacity ≤ ringIndex then
      if i < 0 then extractLoop st rest acc collected
      else (acc, collected)
    else
      extractLoop st rest (acc ++ [st.ringBuffer ringIndex]) (collected + 1)

/-- Embedding of `SampleCollector::extractRequestedSamples`
(SampleCollector.cpp lines 235-290): reset `samplesCollected`, run the
extraction loop over `[gatheringStart, gatheringStop)`, then stop gathering.
Returns the final collector state and the extracted sample sequence. -/
def extractRequestedSamples (st : CollectorState) : CollectorState × List Sample :=
  let r := extractLoop st (loopIndices st.gatheringStart st.gatheringStop) [] 0
  ({ st with samplesCollected := r.2, gatheringActive := false }, r.1)

/-- Formalisation of the claim's per-index validity rules
(spec section 4.7), for comparison with `extractLoop`: with absolute index
`A = reference_count + i` and `head = totalSamplesReceived`, an index with
`A < max(0, head - capacity)` is reported too old and skipped, an index with
`A ≥ head` stops the extraction, and any other index is collected. -/
def specRulesExtractLoop (st : CollectorState) (idxs : List Int) (acc : List Sample)
    (collected : Nat) : List Sample × Nat :=
  match idxs with
  | [] => (acc, collected)
  | i :: rest =>
    let A : Int := (st.gatheringStartSampleCount : Int) + i
    let oldest : Int := max 0 ((st.totalSamplesReceived : Int) - (st.ringCapacity : Int))
    if A < oldest then specRulesExtractLoop st rest acc collected
    else if (st.totalSamplesReceived : Int) ≤ A then (acc, collected)
    else
      specRulesExtractLoop st rest
        (acc ++ [st.ringBuffer (A % (st.ringCapacity : Int)).toNat]) (collected + 1)

/-- Extraction as the claim's validity rules prescribe it, over the whole
requested window. -/
def specRulesExtract (st : CollectorState) : List Sample × Nat :=
  specRulesExtractLoop st (loopIndices st.gatheringStart st.gatheringStop) [] 0

/-- Extraction as the amended claim describes the code: an index whose ring
slot is invalid (absolute index at or beyond `head`, or older than the
oldest retained sample) is skipped when the relative index is negative and
terminates the extraction when it is non-negative; valid indices are
collected in order. -/
def amendedRulesExtractLoop (st : CollectorState) (idxs : List Int) (acc : List Sample)
    (collected : Nat) : List Sample × Nat :=
  match idxs with
  | [] => (acc, collected)
  | i :: rest =>
    let A : Int := (st.gatheringStartSampleCount : Int) + i
    let oldest : Int := max 0 ((st.totalSamplesReceived : Int) - (st.ringCapacity : Int))
    if A < oldest ∨ (st.totalSamplesReceived : Int) ≤ A then
      if i < 0 then amendedRulesExtractLoop st rest acc collected
      else (acc, collected)
    else
      amendedRulesExtractLoop st rest
        (acc ++ [st.ringBuffer (A % (st.ringCapacity : Int)).toNat]) (collected + 1)

/-! ## Concrete fixtures for the test scenarios -/

/-- A sample tagged through its timestamp fields, standing for the `n`-th
sample produced by the sampling core. -/
def ringSample (n : Nat) : Sample :=
  { t_us := n, rollover_count := 0, swI := 0, swV := 0, outA := 0, outB := 0,
    t1 := 0, t_us_end := n, rollover_count_end := 0 }

/-- An initialized SharedRing of capacity 4 (the push/drain test scenario). -/
def emptyRing4 : SharedRing :=
  SharedRing_Init 4
    { capacity := 0, head := 0, tail := 0, overruns := 0, samples := fun _ => ringSample 0 }

/-- The capacity-4 ring after pushing the five samples s1 .. s5. -/
def ringC1 : SharedRing :=
  [1, 2, 3, 4, 5].foldl (fun r n => SharedRing_Add r (ringSample n)) emptyRing4

/-- StateManager after an `arm` command is injected in IDLE. -/
def smArm0 : SMState := requestArm initSMState

/-- First `update()` tick after the arm command (t = 0 ms, MSW_A and MSW_B
never asserted). -/
def smT0 : SMState := StateManager_update smArm0 false false 0 0

/-- Second tick, t = 1 ms, end-stops still not asserted. -/
def smT1 : SMState := StateManager_update smT0 false false 1 0

/-- Tick at t = 1200 ms (more than 1000 ms after the arm command), end-stops
still not asserted. -/
def smT1200 : SMState := StateManager_update smT1 false false 1200 0

/-- Tick at t = 1201 ms, end-stops still not asserted. -/
def smT1201 : SMState := StateManager_update smT1200 false false 1201 0

/-- Tick at t = 1300 ms from the state reached at t = 1201 ms, with the
MSW_A end-stop input not asserted. -/
def smC3 : SMState := StateManager_update smT1201 false false 1300 0

/-- A TimeMapper anchored at hardware time 0 = Unix time 0, so that the
mapped timestamp of a sample equals its composed 64-bit hardware time. -/
def tmC4 : TimeMapperState :=
  { hasMappingData := true, ntpTimeAtSync := 0, hardwareTimeAtSync := 0 }

/-- A sample whose hardware counter has rolled over once
(`rollover_count = 1`, `t_us = 5`). -/
def sampleC4 : Sample :=
  { t_us := 5, rollover_count := 1, swI := 0, swV := 0, outA := 0, outB := 0,
    t1 := 0, t_us_end := 5, rollover_count_end := 1 }

/-- End-stop pins both reading HIGH. -/
def pinsC4 : PinReads := { mswA_pin_low := false, mswB_pin_low := false }

/-- The NTP anchor of the spec's conversion scenario:
unix_us_at_sync = 1 700 000 000 000 000, hw_us_at_sync = 5 000 000. -/
def anchorC5 : TimeMapperState :=
  { hasMappingData := true, ntpTimeAtSync := 1700000000000000,
    hardwareTimeAtSync := 5000000 }

/-- A resolved NTP client that has never synced. -/
def ntpStW : NTPState :=
  { serverResolved := true, synced := false, epochUsAtSync := 11,
    microsAtSync := 22, requestSentMicros := 33 }

/-- Capture buffer of capacity 4, job (0, 8) opened on the empty buffer,
then 8 samples captured: the relative indices 0..3 are retained history
no longer (head = 8, oldest retained = 4), indices 4..7 are retained. -/
def cexCollector : CollectorState :=
  (List.range 8).foldl (fun st n => storeSampleInRing st (ringSample n))
    (startGathering (collectorInit 4 (fun _ => ringSample 0)) 0 8)

/-- Capture scenario of the spec: capacity 50, samples 0..99 captured,
window (-10, 10) opened (reference count 100, 20 samples needed, job
active), then samples 100..119 captured (total 120, write position
120 mod 50 = 20).  Ring slot `s` holds the most recently stored sample
whose absolute index is congruent to `s` modulo 50: sample `100 + s` for
`s < 20` and sample `50 + s` for the remaining slots. -/
def scenCollector : CollectorState :=
  { ringCapacity := 50, ringHead := 20, totalSamplesReceived := 120,
    gatheringActive := true, gatheringStart := -10, gatheringStop := 10,
    samplesNeeded := 20, samplesCollected := 0, gatheringStartSampleCount := 100,
    ringBuffer := fun s => ringSample (if s < 20 then 100 + s else 50 + s) }

/-- Datagram-size contract of the telemetry emitter: 64 header bytes plus
34 bytes per record, one to 41 records. -/
def packetOk (p : Nat) : Prop :=
  ∃ N : Nat, 1 ≤ N ∧ N ≤ MAX_SAMPLES_PER_BUNDLE ∧ p = HEADER_SIZE + DATA_SIZE_PER_SAMPLE * N

/-- Emitter sanity: the bundle never holds more than 41 records and every
datagram sent so far satisfied the size contract. -/
def EmitterGood (st : EmitterState) : Prop :=
  st.bundle.length ≤ MAX_SAMPLES_PER_BUNDLE ∧ ∀ p ∈ st.sentPacketSizes, packetOk p

/-! ## Helper lemmas: SharedRing -/

/-- Push always publishes `head + 1`. -/
theorem SharedRing_Add_head (r : SharedRing) (s : Sample) :
    (SharedRing_Add r s).head = (r.head + 1) % U32 := rfl

/-- Push never changes the capacity. -/
theorem SharedRing_Add_capacity (r : SharedRing) (s : Sample) :
    (SharedRing_Add r s).capacity = r.capacity := by
  unfold SharedRing_Add; dsimp only; split <;> rfl

/-- Push advances `tail` exactly when the ring was full. -/
theorem SharedRing_Add_tail (r : SharedRing) (s : Sample) :
    (SharedRing_Add r s).tail =
      if r.capacity ≤ usub32 r.head r.tail then (r.tail + 1) % U32 else r.tail := by
  unfold SharedRing_Add; dsimp only; split <;> rfl

/-- Push increments `overruns` exactly when the ring was full. -/
theorem SharedRing_Add_overruns (r : SharedRing) (s : Sample) :
    (SharedRing_Add r s).overruns =
      if r.capacity ≤ usub32 r.head r.tail then (r.overruns + 1) % U32 else r.overruns := by
  unfold SharedRing_Add; dsimp only; split <;> rfl

/-- Push preserves the ring invariant (for any capacity representable in
`uint32_t`). -/
theorem SharedRing_Add_inv (r : SharedRing) (s : Sample) (hcap : r.capacity < U32)
    (hinv : RingInv r) : RingInv (SharedRing_Add r s) := by
  obtain ⟨h1, h2, h3⟩ := hinv
  refine ⟨?_, ?_, ?_⟩ <;>
    simp only [SharedRing_Add_head, SharedRing_Add_tail, SharedRing_Add_capacity,
      usub32, U32] at * <;>
    first
      | (split_ifs <;> omega)
      | omega

/-- Ring state left by a drain that found samples available. -/
theorem consume_state (r : SharedRing) (max : Int) (h0 : usub32 r.head r.tail ≠ 0) :
    (SharedRing_Consume r true max).2.2 =
      { r with tail := (r.tail +
          (if max < 0 then usub32 r.head r.tail
           else u32ofInt (min max (toInt32 (usub32 r.head r.tail))))) % U32 } := by
  unfold SharedRing_Consume
  simp only [Bool.true_eq_false, if_neg, if_false]
  rw [if_neg h0]

/-- The number of samples taken by a drain never exceeds the number
available, provided `available` fits in `int32_t` (the capacity is 1024 in
the source). -/
theorem consumeTake_le (max : Int) (avail : Nat) (h : avail < 2147483648) :
    (if max < 0 then avail else u32ofInt (min max (toInt32 avail))) ≤ avail := by
  split
  · exact Nat.le_refl _
  · unfold u32ofInt toInt32 U32
    split_ifs <;> omega

/-- Drain preserves the ring invariant. -/
theorem SharedRing_Consume_inv (r : SharedRing) (b : Bool) (max : Int)
    (hcap : r.capacity < 2147483648) (hinv : RingInv r) :
    RingInv (SharedRing_Consume r b max).2.2 := by
  obtain ⟨h1, h2, h3⟩ := hinv
  cases b with
  | false => exact ⟨h1, h2, h3⟩
  | true =>
    by_cases h0 : usub32 r.head r.tail = 0
    · unfold SharedRing_Consume
      simp only [Bool.true_eq_false, if_neg, if_false]
      rw [if_pos h0]
      exact ⟨h1, h2, h3⟩
    · rw [consume_state r max h0]
      have htake := consumeTake_le max (usub32 r.head r.tail) (by omega)
      revert htake
      generalize (if max < 0 then usub32 r.head r.tail
          else u32ofInt (min max (toInt32 (usub32 r.head r.tail)))) = take
      intro htake
      refine ⟨?_, ?_, ?_⟩ <;> dsimp only
      · exact h1
      · unfold U32; omega
      · unfold usub32 U32 at *; omega

/-- The two linear copy chunks of the drain concatenate to one contiguous
masked-index range. -/
theorem chunk_concat {α : Type} (f : Nat → α) (t n fc : Nat) (h : fc ≤ n) :
    (List.range fc).map (fun i => f (t + i)) ++
      (List.range (n - fc)).map (fun i => f (t + fc + i)) =
    (List.range n).map (fun i => f (t + i)) := by
  conv_rhs => rw [show n = fc + (n - fc) by omega, List.range_add]
  rw [List.map_append, List.map_map]
  congr 1
  apply List.map_congr_left
  intro i _
  simp [Function.comp, Nat.add_assoc]

/-- A drain with negative `max_samples` takes everything available. -/
theorem consume_neg_all (r : SharedRing) (max : Int) (hmax : max < 0) :
    (SharedRing_Consume r true max).1 = usub32 r.head r.tail ∧
    (SharedRing_Consume r true max).2.1 =
      (List.range (usub32 r.head r.tail)).map
        (fun i => r.samples ((r.tail + i) &&& (r.capacity - 1))) := by
  by_cases h0 : usub32 r.head r.tail = 0
  · unfold SharedRing_Consume
    simp only [Bool.true_eq_false, if_neg, if_false]
    rw [if_pos h0, h0]
    simp
  · unfold SharedRing_Consume
    simp only [Bool.true_eq_false, if_neg, if_false]
    rw [if_neg h0]
    dsimp only
    rw [if_pos hmax]
    refine ⟨rfl, ?_⟩
    exact chunk_concat (fun x => r.samples (x &&& (r.capacity - 1))) r.tail
      (usub32 r.head r.tail) _ (Nat.min_le_left _ _)

/-! ## Claim theorems: SharedRing (C1, C10) -/

/-- Claim C1: the unsigned distance `head - tail` stays within
`[0, capacity]` across every push and every drain (for the source's
`int32_t`-safe capacities, 1024 in SharedRing.h); a push to a full ring
(`head - tail >= capacity`) advances `tail` by exactly one and increments
`overruns` by exactly one; and pushing s1..s5 into an empty ring of
capacity 4 then draining yields exactly s2,s3,s4,s5 with `overruns = 1`. -/
theorem C1_ring_integrity :
    (∀ (r : SharedRing) (s : Sample), r.capacity < U32 → RingInv r →
        RingInv (SharedRing_Add r s)) ∧
    (∀ (r : SharedRing) (b : Bool) (max : Int), r.capacity < 2147483648 → RingInv r →
        RingInv (SharedRing_Consume r b max).2.2) ∧
    (∀ (r : SharedRing) (s : Sample), r.capacity ≤ usub32 r.head r.tail →
        (SharedRing_Add r s).tail = (r.tail + 1) % U32 ∧
        (SharedRing_Add r s).overruns = (r.overruns + 1) % U32) ∧
    ((SharedRing_Consume ringC1 true (-1)).2.1 =
        [ringSample 2, ringSample 3, ringSample 4, ringSample 5] ∧
      ringC1.overruns = 1) := by
  refine ⟨fun r s h1 h2 => SharedRing_Add_inv r s h1 h2,
          fun r b max h1 h2 => SharedRing_Consume_inv r b max h1 h2,
          fun r s hfull => ⟨?_, ?_⟩, ⟨by rfl, by rfl⟩⟩
  · rw [SharedRing_Add_tail, if_pos hfull]
  · rw [SharedRing_Add_overruns, if_pos hfull]

/-- Witness for C1 at concrete inputs: the invariant after a push into the
empty capacity-4 ring, after the drain of the full scenario ring, and the
tail advance of a push to the full scenario ring. -/
theorem C1_ring_integrity_witness :
    RingInv (SharedRing_Add emptyRing4 (ringSample 1)) ∧
    RingInv (SharedRing_Consume ringC1 true (-1)).2.2 ∧
    (SharedRing_Add ringC1 (ringSample 6)).tail = (ringC1.tail + 1) % U32 :=
  ⟨C1_ring_integrity.1 emptyRing4 (ringSample 1) (by decide) (by decide),
   C1_ring_integrity.2.1 ringC1 true (-1) (by decide) (by decide),
   (C1_ring_integrity.2.2.1 ringC1 (ringSample 6) (by decide)).1⟩

/-- Claim C10: a drain with a null output pointer returns 0 and changes
nothing; a drain with negative `max_samples` copies all available samples
(`head - tail` of them, in order from `tail`) and returns that count. -/
theorem C10_consume_null_and_negative :
    (∀ (r : SharedRing) (max : Int), SharedRing_Consume r false max = (0, [], r)) ∧
    (∀ (r : SharedRing) (max : Int), max < 0 →
        (SharedRing_Consume r true max).1 = usub32 r.head r.tail ∧
        (SharedRing_Consume r true max).2.1 =
          (List.range (usub32 r.head r.tail)).map
            (fun i => r.samples ((r.tail + i) &&& (r.capacity - 1)))) :=
  ⟨fun _ _ => rfl, fun r max hmax => consume_neg_all r max hmax⟩

/-- Witness for C10: drain of the scenario ring with `max_samples = -1`
returns all four available samples. -/
theorem C10_consume_null_and_negative_witness :
    SharedRing_Consume ringC1 false (-1) = (0, [], ringC1) ∧
    (SharedRing_Consume ringC1 true (-1)).1 = usub32 ringC1.head ringC1.tail :=
  ⟨C10_consume_null_and_negative.1 ringC1 (-1),
   (C10_consume_null_and_negative.2 ringC1 (-1) (by decide)).1⟩

/-! ## Claim theorems: StateManager (C2, C3) -/

/-- Claim C2, evaluated on the code at its failing input: from IDLE with an
arm command and the MSW_A end-stop never asserted, the first tick does enter
ARM_START_ENGAGE, but the very next tick (1 ms later, MSW_A still not
asserted) already transitions to ARM_PAUSE_BEFORE_PULLBACK because the
`mswA_low` guard is replaced by `if (true)` in the source (StateManager.cpp
line 192); the machine then reaches ARMED_READY, and the sticky arm-timeout
bit 0 is still clear long after 1000 ms have elapsed, contradicting the
claimed timeout-flag behaviour. -/
theorem C2_arm_timeout_code_eval :
    smT0.currentState = STATE_ARM_START_ENGAGE ∧
    smT0.mswA_low = false ∧
    smT1.mswA_low = false ∧
    smT1.currentState = STATE_ARM_PAUSE_BEFORE_PULLBACK ∧
    getErrorFlags smT1 = 0 ∧
    smT1200.currentState = STATE_ARM_PULL_BACK ∧
    getErrorFlags smT1200 = 0 ∧
    smT1201.currentState = STATE_ARMED_READY ∧
    getErrorFlags smT1201 = 0 := by decide

/-- Claim C3, evaluated on the code at its failing input: an `update()` tick
in ARMED_READY (not in manual mode) with the MSW_A end-stop input not
asserted leaves the sticky retain-fail bit 2 clear, because the retention
check is `if (false)` in the source (StateManager.cpp line 244); the state
does stay ARMED_READY. -/
theorem C3_retain_fail_code_eval :
    smT1201.currentState = STATE_ARMED_READY ∧
    smT1201.isInManualMode = false ∧
    smC3.mswA_low = false ∧
    smC3.currentState = STATE_ARMED_READY ∧
    smC3.errRetainFail = false ∧
    getErrorFlags smC3 = 0 := by decide

/-! ## Claim theorems: TimeMapper (C4, C5) -/

/-- Claim C4, evaluated on the code at its failing input: for a sample with
`rollover_count = 1`, `t_us = 5` and a mapper anchored at (0, 0),
`addSample` stores the mapped timestamp `sampleToNTP(t_us, rollover_count)`
= 2^32 + 5 in the bundled record, while `addSamplesBulk` stores the raw
`t_us` = 5 (UdpManager.cpp line 272), so the two paths are not
equivalent. -/
theorem C4_bulk_timestamp_code_eval :
    (UdpManager_addSample initSMState pinsC4 tmC4 sampleC4 initEmitterState).bundle.map
        TelemetrySample.us = [sampleToNTP tmC4 sampleC4.t_us sampleC4.rollover_count] ∧
    sampleToNTP tmC4 sampleC4.t_us sampleC4.rollover_count = 4294967301 ∧
    (addSampleRecord initSMState pinsC4 tmC4 sampleC4).us = 4294967301 ∧
    (addSamplesBulkRecord initSMState pinsC4 sampleC4).us = 5 ∧
    (UdpManager_addSamplesBulk initSMState pinsC4 [sampleC4] initEmitterState).bundle.map
        TelemetrySample.us = [5] ∧
    (4294967301 : Nat) ≠ 5 := by
  refine ⟨by decide, by decide, by decide, by decide, ?_, by decide⟩
  unfold UdpManager_addSamplesBulk
  rw [addSamplesBulkLoop]
  norm_num [initEmitterState, MAX_SAMPLES_PER_BUNDLE]
  rw [addSamplesBulkLoop]
  norm_num [addSamplesBulkRecord]
  decide

/-- Claim C5 counterexample: with the claim's anchor, `hw_to_unix(5250000)`
is 1700000000250000, not the claimed 1700000250000 (the spec's expected
value is missing three zeros). -/
theorem C5_hw_to_unix_counterexample :
    hardwareToNTPInstance anchorC5 5250000 ≠ 1700000250000 := by decide

/-- Claim C5 as amended: with a valid anchor (and arguments in `uint64_t`
range), `hw_to_unix(hw_us)` equals `unix_us_at_sync + (hw_us -
hw_us_at_sync)` as a signed 64-bit delta, i.e. modulo 2^64 over the
integers; for the scenario anchor, `hw_to_unix(5250000) =
1700000000250000`. -/
theorem C5_hw_to_unix_amended :
    (∀ (m : TimeMapperState) (hw : Nat), m.hasMappingData = true →
        m.ntpTimeAtSync < U64 → m.hardwareTimeAtSync < U64 → hw < U64 →
        (hardwareToNTPInstance m hw : Int) =
          ((m.ntpTimeAtSync : Int) + ((hw : Int) - (m.hardwareTimeAtSync : Int))) %
            (U64 : Int)) ∧
    hardwareToNTPInstance anchorC5 5250000 = 1700000000250000 := by
  constructor
  · intro m hw h hb1 hb2 hb3
    unfold hardwareToNTPInstance
    simp only [h, Bool.true_eq_false, if_neg, if_false]
    unfold U64 at *
    push_cast
    omega
  · decide

/-- Witness for C5 as amended, at the scenario anchor. -/
theorem C5_hw_to_unix_amended_witness :
    (hardwareToNTPInstance anchorC5 5250000 : Int) =
      ((anchorC5.ntpTimeAtSync : Int) +
        ((5250000 : Int) - (anchorC5.hardwareTimeAtSync : Int))) % (U64 : Int) :=
  C5_hw_to_unix_amended.1 anchorC5 5250000 (by decide) (by decide) (by decide) (by decide)

/-! ## Claim theorems: NTPClient (C6, C9) -/

/-- Claim C6 counterexample: for transmit seconds 3944988800 and fraction
0x80000000 the code's conversion yields 1736000000500000 Unix microseconds,
not the claimed 1735689600500000 (3944988800 is not the NTP-seconds value
of 2025-01-01; that would be 3944678400). -/
theorem C6_ntp_conversion_counterexample :
    ntpServerTime 3944988800 0x80000000 ≠ 1735689600500000 := by decide

/-- Claim C6 as amended: the conversion computes `unix_secs = ntp_secs -
2208988800` (exact for any in-range `ntp_secs` at or above the epoch
difference) and `frac_us = frac * 10^6 / 2^32` in exact integer arithmetic;
for secs = 3944988800 and frac = 0x80000000 the result is
1736000000500000 Unix microseconds. -/
theorem C6_ntp_conversion_amended :
    (∀ secs frac : Nat, NTP_UNIX_EPOCH_DIFF ≤ secs → secs < U32 →
        ntpServerTime secs frac =
          (secs - NTP_UNIX_EPOCH_DIFF) * 1000000 + frac * 1000000 / 4294967296) ∧
    ntpServerTime 3944988800 0x80000000 = 1736000000500000 := by
  constructor
  · intro secs frac h1 h2
    unfold ntpServerTime ntpFracToMicros usub32 NTP_UNIX_EPOCH_DIFF U32 at *
    rw [Nat.shiftRight_eq_div_pow]
    norm_num
    omega
  · decide

/-- Witness for C6 as amended, at the scenario timestamp. -/
theorem C6_ntp_conversion_amended_witness :
    ntpServerTime 3944988800 2147483648 =
      (3944988800 - NTP_UNIX_EPOCH_DIFF) * 1000000 + 2147483648 * 1000000 / 4294967296 :=
  C6_ntp_conversion_amended.1 3944988800 2147483648 (by decide) (by decide)

/-- The NTP polling loop leaves the client state untouched and reports
failure when no iteration sees a valid response. -/
theorem syncPollLoop_no_response (st : NTPState) (polls : List (Option (List Nat) × Nat))
    (h : ∀ e ∈ polls, readResponse e.1 = none) : syncPollLoop st polls = (false, st) := by
  induction polls with
  | nil => rfl
  | cons e rest ih =>
    have he := h e (List.mem_cons_self e rest)
    unfold syncPollLoop
    simp only [he]
    exact ih (fun x hx => h x (List.mem_cons_of_mem e hx))

/-- Claim C9: if no poll iteration yields a valid NTP response before the
timeout (or the request could not even be sent), `syncInstance` returns
failure and the anchor - `_epochUsAtSync`, `_microsAtSync` and the
`_synced` flag - is exactly as before the call. -/
theorem C9_ntp_sync_timeout_no_side_effects :
    ∀ (st : NTPState) (sendOk : Bool) (sendMicros : Nat)
      (polls : List (Option (List Nat) × Nat)),
      (∀ e ∈ polls, readResponse e.1 = none) →
      (NTPClient_syncInstance st sendOk sendMicros polls).1 = false ∧
      (NTPClient_syncInstance st sendOk sendMicros polls).2.synced = st.synced ∧
      (NTPClient_syncInstance st sendOk sendMicros polls).2.epochUsAtSync =
        st.epochUsAtSync ∧
      (NTPClient_syncInstance st sendOk sendMicros polls).2.microsAtSync =
        st.microsAtSync := by
  intro st sendOk sendMicros polls h
  unfold NTPClient_syncInstance
  split
  · exact ⟨rfl, rfl, rfl, rfl⟩
  split
  · exact ⟨rfl, rfl, rfl, rfl⟩
  rw [syncPollLoop_no_response _ polls h]
  exact ⟨rfl, rfl, rfl, rfl⟩

/-- Witness for C9: a resolved, never-synced client whose single poll
iteration sees no datagram. -/
theorem C9_ntp_sync_timeout_no_side_effects_witness :
    (NTPClient_syncInstance ntpStW true 5 [(none, 7)]).1 = false ∧
    (NTPClient_syncInstance ntpStW true 5 [(none, 7)]).2.synced = ntpStW.synced ∧
    (NTPClient_syncInstance ntpStW true 5 [(none, 7)]).2.epochUsAtSync =
      ntpStW.epochUsAtSync ∧
    (NTPClient_syncInstance ntpStW true 5 [(none, 7)]).2.microsAtSync =
      ntpStW.microsAtSync :=
  C9_ntp_sync_timeout_no_side_effects ntpStW true 5 [(none, 7)]
    (by intro e he; simp at he; rw [he]; rfl)

/-! ## Claim theorems: telemetry emitter packet sizes (C7) -/

/-- A flush always leaves the bundle empty. -/
theorem flushSamples_bundle (st : EmitterState) : (flushSamples st).bundle = [] := by
  unfold flushSamples sendNeutrinoPacket
  split_ifs with h
  · exact List.length_eq_zero.mp h
  · rfl

/-- Every datagram recorded after a flush satisfies the size contract,
provided the emitter was sane before. -/
theorem flushSamples_sent (st : EmitterState) (hG : EmitterGood st) :
    ∀ p ∈ (flushSamples st).sentPacketSizes, packetOk p := by
  unfold flushSamples sendNeutrinoPacket
  split_ifs with h
  · exact hG.2
  · intro p hp
    dsimp only at hp
    rcases List.mem_append.mp hp with hold | hnew
    · exact hG.2 p hold
    · refine ⟨st.bundle.length, ?_, hG.1, ?_⟩
      · omega
      · simpa using hnew

/-- A flush preserves emitter sanity. -/
theorem flushSamples_good (st : EmitterState) (hG : EmitterGood st) :
    EmitterGood (flushSamples st) := by
  refine ⟨?_, flushSamples_sent st hG⟩
  rw [flushSamples_bundle]
  simp [MAX_SAMPLES_PER_BUNDLE]

/-- One `addSample` preserves emitter sanity: a full bundle is flushed
before the new record is appended. -/
theorem UdpManager_addSample_good (sm : SMState) (pins : PinReads) (m : TimeMapperState)
    (s : Sample) (st : EmitterState) (hG : EmitterGood st) :
    EmitterGood (UdpManager_addSample sm pins m s st) := by
  unfold UdpManager_addSample
  dsimp only
  split_ifs with h
  · have hf := flushSamples_good st hG
    refine ⟨?_, ?_⟩
    · dsimp only
      rw [List.length_append, flushSamples_bundle]
      simp [MAX_SAMPLES_PER_BUNDLE]
    · exact hf.2
  · refine ⟨?_, hG.2⟩
    dsimp only
    rw [List.length_append]
    simp only [List.length_singleton]
    unfold MAX_SAMPLES_PER_BUNDLE at *
    omega

/-- The bulk-append loop preserves emitter sanity: each chunk fits the free
space of the bundle and a full bundle is flushed immediately. -/
theorem addSamplesBulkLoop_good (sm : SMState) (pins : PinReads) (samples : List Sample) :
    ∀ (processed : Nat) (st : EmitterState), EmitterGood st →
      EmitterGood (addSamplesBulkLoop sm pins samples processed st) := by
  intro processed st
  induction processed, st using addSamplesBulkLoop.induct sm pins samples with
  | case1 p st hlt space tp chunk st1 st2 ih =>
    intro hG
    rw [addSamplesBulkLoop, dif_pos hlt]
    dsimp only
    apply ih
    have htp : tp = (samples.length - p) ⊓ space := rfl
    have hspace : space = MAX_SAMPLES_PER_BUNDLE - st.bundle.length := rfl
    have hst1b : st1.bundle.length = st.bundle.length + tp := by
      show (st.bundle ++ chunk).length = _
      rw [List.length_append]
      congr 1
      show (List.map _ (List.take tp (List.drop p samples))).length = tp
      rw [List.length_map, List.length_take, List.length_drop]
      omega
    have hG1 : EmitterGood st1 := by
      refine ⟨?_, hG.2⟩
      have hb := hG.1
      unfold MAX_SAMPLES_PER_BUNDLE at *
      omega
    by_cases h41 : MAX_SAMPLES_PER_BUNDLE ≤ st1.bundle.length
    · have e : st2 = flushSamples st1 := if_pos h41
      rw [e]
      exact flushSamples_good st1 hG1
    · have e : st2 = st1 := if_neg h41
      rw [e]
      exact hG1
  | case2 p st hlt =>
    intro hG
    rw [addSamplesBulkLoop, dif_neg hlt]
    exact hG

/-- Every single emitter operation preserves emitter sanity. -/
theorem runEmitterOp_good (st : EmitterState) (op : EmitterOp) (hG : EmitterGood st) :
    EmitterGood (runEmitterOp st op) := by
  cases op with
  | opAddSample sm pins m s => exact UdpManager_addSample_good sm pins m s st hG
  | opAddSamplesBulk sm pins ss => exact addSamplesBulkLoop_good sm pins ss 0 st hG
  | opFlushSamples => exact flushSamples_good st hG

/-- Emitter sanity is preserved by any operation sequence. -/
theorem runEmitterOps_good (ops : List EmitterOp) :
    ∀ st : EmitterState, EmitterGood st → EmitterGood (runEmitterOps st ops) := by
  induction ops with
  | nil => intro st hG; exact hG
  | cons op rest ih =>
    intro st hG
    exact ih (runEmitterOp st op) (runEmitterOp_good st op hG)

/-- Claim C7: starting from the freshly initialized emitter, after any
sequence of `addSample` / `addSamplesBulk` / `flushSamples` operations,
every datagram sent has length exactly `64 + 34 * N` with `1 ≤ N ≤ 41`,
the bundle count never exceeds 41, and a flush of an empty bundle sends
nothing (it is the identity). -/
theorem C7_packet_sizes :
    (∀ (ops : List EmitterOp) (p : Nat),
        p ∈ (runEmitterOps initEmitterState ops).sentPacketSizes → packetOk p) ∧
    (∀ ops : List EmitterOp,
        (runEmitterOps initEmitterState ops).bundle.length ≤ MAX_SAMPLES_PER_BUNDLE) ∧
    (∀ st : EmitterState, st.bundle = [] → flushSamples st = st) := by
  have hinit : EmitterGood initEmitterState :=
    ⟨by simp [initEmitterState, MAX_SAMPLES_PER_BUNDLE], by simp [initEmitterState]⟩
  refine ⟨fun ops p hp => (runEmitterOps_good ops initEmitterState hinit).2 p hp,
          fun ops => (runEmitterOps_good ops initEmitterState hinit).1,
          fun st h => ?_⟩
  unfold flushSamples
  rw [if_pos (by rw [h]; rfl)]

/-- Witness for C7: a one-sample bundle flushes into a 98-byte datagram,
and a flush of the fresh emitter is a no-op. -/
theorem C7_packet_sizes_witness :
    packetOk 98 ∧
    (runEmitterOps initEmitterState [EmitterOp.opFlushSamples]).bundle.length ≤
      MAX_SAMPLES_PER_BUNDLE ∧
    flushSamples initEmitterState = initEmitterState :=
  ⟨C7_packet_sizes.1
      [EmitterOp.opAddSample initSMState pinsC4 tmC4 sampleC4, EmitterOp.opFlushSamples]
      98 (by decide),
   C7_packet_sizes.2.1 [EmitterOp.opFlushSamples],
   C7_packet_sizes.2.2 initEmitterState rfl⟩

/-! ## Claim theorems: capture extraction (C8) -/

/-- Characterization of `getRingIndex` in the claim's vocabulary: with
absolute index `A = ref + i` in `size_t` range and at least one captured
sample, the invalid marker is returned exactly for `A` older than the
oldest retained sample or at/beyond `head`, and otherwise the returned
slot is `A mod capacity`. -/
theorem getRingIndex_spec (st : CollectorState) (i : Int) (ref : Nat)
    (hcap : 0 < st.ringCapacity) (htot : 0 < st.totalSamplesReceived)
    (hnn : 0 ≤ (ref : Int) + i) (hlt : (ref : Int) + i < (U64 : Int)) :
    (st.ringCapacity ≤ getRingIndex st i ref ↔
      ((ref : Int) + i < max 0 ((st.totalSamplesReceived : Int) - (st.ringCapacity : Int)) ∨
       (st.totalSamplesReceived : Int) ≤ (ref : Int) + i)) ∧
    (¬ st.ringCapacity ≤ getRingIndex st i ref →
      getRingIndex st i ref = (((ref : Int) + i) % (st.ringCapacity : Int)).toNat) := by
  unfold getRingIndex
  rw [if_neg (by omega)]
  dsimp only
  unfold U64 at *
  push_cast at *
  have hmod : (((ref : Int) + i) % 18446744073709551616).toNat % st.ringCapacity <
      st.ringCapacity := Nat.mod_lt _ hcap
  have key : (((ref : Int) + i) % (st.ringCapacity : Int)).toNat =
      (((ref : Int) + i) % 18446744073709551616).toNat % st.ringCapacity := by
    obtain ⟨m, hm⟩ : ∃ m : Nat, (ref : Int) + i = (m : Int) :=
      ⟨((ref : Int) + i).toNat, by omega⟩
    rw [hm] at hlt ⊢
    have h3 : (((m : Int)) % 18446744073709551616).toNat = m := by omega
    rw [h3]
    rw [← Int.natCast_mod, Int.toNat_natCast]
  constructor
  · split_ifs <;> omega
  · intro hv
    split_ifs at hv ⊢ <;> first | exact key.symm | omega

/-- The code's extraction loop computes exactly what the amended rules
prescribe, for any collector state with a non-empty ring whose window stays
in `size_t` range. -/
theorem extractLoop_eq_amendedRules (st : CollectorState)
    (hcap : 0 < st.ringCapacity) (htot : 0 < st.totalSamplesReceived) :
    ∀ (idxs : List Int) (acc : List Sample) (collected : Nat),
      (∀ i ∈ idxs, 0 ≤ (st.gatheringStartSampleCount : Int) + i ∧
        (st.gatheringStartSampleCount : Int) + i < (U64 : Int)) →
      extractLoop st idxs acc collected = amendedRulesExtractLoop st idxs acc collected := by
  intro idxs
  induction idxs with
  | nil => intro acc c _; rfl
  | cons i rest ih =>
    intro acc c h
    have hi := h i (List.mem_cons_self i rest)
    have hrest := fun j hj => h j (List.mem_cons_of_mem i hj)
    have hspec := getRingIndex_spec st i st.gatheringStartSampleCount hcap htot hi.1 hi.2
    unfold extractLoop amendedRulesExtractLoop
    dsimp only
    by_cases hbad : st.ringCapacity ≤ getRingIndex st i st.gatheringStartSampleCount
    · rw [if_pos hbad, if_pos (hspec.1.mp hbad)]
      by_cases hneg : i < 0
      · rw [if_pos hneg, if_pos hneg]
        exact ih acc c hrest
      · rw [if_neg hneg, if_neg hneg]
    · rw [if_neg hbad, if_neg ((not_iff_not.mpr hspec.1).mp hbad), hspec.2 hbad]
      exact ih _ _ hrest

/-- Claim C8 counterexample: for the capacity-4 buffer with a (0, 8) job
opened at head 0 and extraction at head 8, every requested index is too old
(oldest retained is 4) yet non-negative, so the code stops at the first
index and collects nothing, while the claim's validity rules would skip
indices 0..3 and collect the four samples at absolute indices 4..7: the
code does not implement the claimed per-index handling. -/
theorem C8_extraction_counterexample :
    canSendNow cexCollector = true ∧
    (extractRequestedSamples cexCollector).1.samplesCollected = 0 ∧
    (extractRequestedSamples cexCollector).2 = [] ∧
    (specRulesExtract cexCollector).2 = 4 ∧
    (specRulesExtract cexCollector).1.map Sample.t_us = [4, 5, 6, 7] ∧
    ¬((extractRequestedSamples cexCollector).1.samplesCollected =
        (specRulesExtract cexCollector).2) :=
  ⟨by decide, by decide, by rfl, by decide, by decide, by decide⟩

/-- Claim C8 as amended: during extraction an index whose ring slot is
invalid is skipped (extraction continues) only when the relative index is
negative, and stops the extraction when the relative index is non-negative,
whether the sample is an unavailable future one or an overwritten old one;
valid indices are collected in order.  The concrete window (-10, +10) at
reference count 100 with capacity 50 and head 120 yields exactly the
samples of absolute indices 90..109 with collected = 20. -/
theorem C8_extraction_amended :
    (∀ st : CollectorState, 0 < st.ringCapacity → 0 < st.totalSamplesReceived →
      ∀ (idxs : List Int) (acc : List Sample) (collected : Nat),
        (∀ i ∈ idxs, 0 ≤ (st.gatheringStartSampleCount : Int) + i ∧
          (st.gatheringStartSampleCount : Int) + i < (U64 : Int)) →
        extractLoop st idxs acc collected = amendedRulesExtractLoop st idxs acc collected) ∧
    (canSendNow scenCollector = true ∧
     (extractRequestedSamples scenCollector).2.map Sample.t_us =
       [90, 91, 92, 93, 94, 95, 96, 97, 98, 99,
        100, 101, 102, 103, 104, 105, 106, 107, 108, 109] ∧
     (extractRequestedSamples scenCollector).1.samplesCollected = 20) :=
  ⟨fun st h1 h2 => extractLoop_eq_amendedRules st h1 h2, by decide⟩

/-- Witness for C8 as amended: the equivalence applied to the scenario
state over its own requested window. -/
theorem C8_extraction_amended_witness :
    extractLoop scenCollector
        (loopIndices scenCollector.gatheringStart scenCollector.gatheringStop) [] 0 =
      amendedRulesExtractLoop scenCollector
        (loopIndices scenCollector.gatheringStart scenCollector.gatheringStop) [] 0 :=
  C8_extraction_amended.1 scenCollector (by decide) (by decide)
    (loopIndices scenCollector.gatheringStart scenCollector.gatheringStop) [] 0 (by decide)

end REMC
